import Mathlib

/-!
Verification of the outbound dispatch engine of AxonTeam/GitHookAPI
(`WHRequestHandler`, `src/services/WHRequestHandler.js`, given here as
`src/unnamed/part_000`).

The embedding follows the JavaScript source.  JavaScript numbers that the
handler manipulates are integers (epoch milliseconds, epoch seconds,
second/millisecond deltas, HTTP status codes), or `NaN` when a header is
absent or non-numeric; they are modelled by `JSNum` below.  JavaScript
bitwise operators (`^`, `&`) first coerce each operand with `ToInt32`
(truncation to a signed 32-bit integer, `NaN` becoming `0`) and return a
signed 32-bit integer; this coercion is modelled exactly, because the
source applies `^`/`&` to epoch-millisecond values that exceed `2^31`.
`Date.now()` is modelled by an explicit `now : Int` argument.
-/

/-- A JavaScript number as used by the handler: an integer, or `NaN`
(the result of `Number(...)` on an absent or non-numeric header). -/
inductive JSNum where
  | nan : JSNum
  | int : Int → JSNum
deriving DecidableEq

/-- `ToUint32`: the unsigned 32-bit truncation of an integer. -/
def toUint32 (n : Int) : Nat := (n % (2 ^ 32)).toNat

/-- Reinterpret an unsigned 32-bit value as a signed 32-bit integer. -/
def ofUint32 (m : Nat) : Int :=
  if m < 2 ^ 31 then (m : Int) else (m : Int) - 2 ^ 32

/-- `ToInt32`: JavaScript's signed 32-bit truncation of an integer. -/
def toInt32 (n : Int) : Int := ofUint32 (toUint32 n)

/-- `ToInt32` applied to a JavaScript number (`NaN` converts to `0`). -/
def jsToInt32 : JSNum → Int
  | JSNum.nan => 0
  | JSNum.int n => toInt32 n

/-- JavaScript `^` on 32-bit-coerced operands. -/
def int32xor (a b : Int) : Int := ofUint32 (toUint32 a ^^^ toUint32 b)

/-- JavaScript `&` on 32-bit-coerced operands. -/
def int32and (a b : Int) : Int := ofUint32 (toUint32 a &&& toUint32 b)

/-- JavaScript `<` on numbers: any comparison with `NaN` is `false`. -/
def jsLt : JSNum → JSNum → Bool
  | JSNum.int a, JSNum.int b => decide (a < b)
  | _, _ => false

/-- JavaScript `* 1000` (`NaN` is absorbing). -/
def jsMul1000 : JSNum → JSNum
  | JSNum.nan => JSNum.nan
  | JSNum.int n => JSNum.int (n * 1000)

/-- JavaScript `+ Date.now()` (`NaN` is absorbing). -/
def jsAddInt : JSNum → Int → JSNum
  | JSNum.nan, _ => JSNum.nan
  | JSNum.int a, n => JSNum.int (a + n)

/-- The branchless "maximum" of the source, line 107 / line 147:
`a ^ ((a ^ b) & -(a < b))`, with JavaScript `ToInt32` coercion on every
bitwise operand.  `-(a < b)` is `-1` when the comparison holds and `0`
(from `-false = -0`) otherwise. -/
def branchlessMax (a b : JSNum) : Int :=
  int32xor (jsToInt32 a)
    (int32and (int32xor (jsToInt32 a) (jsToInt32 b))
      (toInt32 (if jsLt a b then -1 else 0)))

/-- `value || 0` applied to the result of `Map.get`: `undefined`, `NaN`
and `0` are falsy and give `0`; any other stored number is returned. -/
def jsOrZero : Option JSNum → Int
  | none => 0
  | some JSNum.nan => 0
  | some (JSNum.int n) => n

theorem toUint32_lt (n : Int) : toUint32 n < 2 ^ 32 := by
  unfold toUint32; omega

theorem toUint32_ofUint32 (m : Nat) (h : m < 2 ^ 32) :
    toUint32 (ofUint32 m) = m := by
  unfold toUint32 ofUint32; split <;> omega

theorem toUint32_toInt32 (n : Int) : toUint32 (toInt32 n) = toUint32 n :=
  toUint32_ofUint32 _ (toUint32_lt n)

theorem toInt32_ofUint32 (m : Nat) (h : m < 2 ^ 32) :
    toInt32 (ofUint32 m) = ofUint32 m := by
  rw [toInt32, toUint32_ofUint32 m h]

theorem int32and_neg_one (x : Int) : int32and x (-1) = toInt32 x := by
  rw [int32and, show toUint32 (-1 : Int) = 2 ^ 32 - 1 from by decide,
    Nat.and_pow_two_sub_one_of_lt_two_pow (toUint32_lt x)]
  rfl

theorem int32and_zero (x : Int) : int32and x 0 = 0 := by
  rw [int32and, show toUint32 (0 : Int) = 0 from rfl, Nat.and_zero]
  decide

theorem int32xor_zero (x : Int) : int32xor x 0 = toInt32 x := by
  rw [int32xor, show toUint32 (0 : Int) = 0 from rfl, Nat.xor_zero]
  rfl

theorem toInt32_int32xor (a b : Int) : toInt32 (int32xor a b) = int32xor a b := by
  rw [int32xor]
  exact toInt32_ofUint32 _ (Nat.xor_lt_two_pow (toUint32_lt a) (toUint32_lt b))

theorem int32xor_cancel (a b : Int) :
    int32xor (toInt32 a) (int32xor (toInt32 a) (toInt32 b)) = toInt32 b := by
  rw [int32xor, int32xor, toUint32_toInt32 a, toUint32_toInt32 b,
    toUint32_ofUint32 _ (Nat.xor_lt_two_pow (toUint32_lt a) (toUint32_lt b)),
    ← Nat.xor_assoc, Nat.xor_self, Nat.zero_xor]
  rfl

/-- What the source's "branchless max" actually computes on integer
operands: the `ToInt32` truncation of the true maximum (the comparison
`a < b` is made at full precision, but the selected value passes through
the 32-bit coercion of `^`). -/
theorem branchlessMax_int (a b : Int) :
    branchlessMax (JSNum.int a) (JSNum.int b) = toInt32 (max a b) := by
  have hj : jsToInt32 (JSNum.int a) = toInt32 a := rfl
  by_cases h : a < b
  · have hlt : jsLt (JSNum.int a) (JSNum.int b) = true := by
      simp [jsLt, h]
    rw [branchlessMax, hlt, if_pos rfl, hj,
      show jsToInt32 (JSNum.int b) = toInt32 b from rfl,
      show toInt32 (-1) = -1 from by decide, int32and_neg_one,
      toInt32_int32xor, int32xor_cancel, max_eq_right h.le]
  · have hlt : jsLt (JSNum.int a) (JSNum.int b) = false := by
      simp [jsLt, h]
    rw [branchlessMax, hlt, if_neg (by simp), hj,
      show jsToInt32 (JSNum.int b) = toInt32 b from rfl,
      show toInt32 0 = 0 from by decide, int32and_zero, int32xor_zero,
      toInt32, toUint32_toInt32, max_eq_left (not_lt.mp h)]
    rfl

section AListOps

variable {κ : Type} {α : Type} [DecidableEq κ]

/-- `Map.get`. -/
def alget : List (κ × α) → κ → Option α
  | [], _ => none
  | (k, v) :: rest, key => if k = key then some v else alget rest key

/-- `Map.delete`. -/
def aldelete : List (κ × α) → κ → List (κ × α)
  | [], _ => []
  | (k, v) :: rest, key =>
      if k = key then aldelete rest key else (k, v) :: aldelete rest key

/-- `Map.set` (observed only through `alget`/`aldelete`, for which
prepending after removal realizes JavaScript `Map` semantics). -/
def alset (m : List (κ × α)) (key : κ) (v : α) : List (κ × α) :=
  (key, v) :: aldelete m key

/-- `Map.has`. -/
def alhas (m : List (κ × α)) (key : κ) : Bool := (alget m key).isSome

theorem alget_cons (k : κ) (v : α) (rest : List (κ × α)) (key : κ) :
    alget ((k, v) :: rest) key = if k = key then some v else alget rest key :=
  rfl

theorem aldelete_cons (k : κ) (v : α) (rest : List (κ × α)) (key : κ) :
    aldelete ((k, v) :: rest) key =
      if k = key then aldelete rest key else (k, v) :: aldelete rest key :=
  rfl

theorem alget_aldelete (m : List (κ × α)) (k key : κ) :
    alget (aldelete m k) key = if key = k then none else alget m key := by
  induction m with
  | nil => simp [aldelete, alget]
  | cons p rest ih =>
      obtain ⟨k', v⟩ := p
      rw [aldelete_cons]
      by_cases h1 : k' = k
      · rw [if_pos h1, ih, alget_cons]
        by_cases h2 : key = k
        · simp [h2]
        · rw [if_neg h2, if_neg h2, if_neg fun (h : k' = key) => h2 (h.symm.trans h1)]
      · rw [if_neg h1, alget_cons, alget_cons]
        by_cases h2 : k' = key
        · have hk : ¬ key = k := fun h => h1 (h2.trans h)
          rw [if_pos h2, if_neg hk, if_pos h2]
        · rw [if_neg h2, if_neg h2, ih]

theorem alget_alset (m : List (κ × α)) (k key : κ) (v : α) :
    alget (alset m k v) key = if key = k then some v else alget m key := by
  by_cases h : key = k
  · subst h; rw [alset, alget, if_pos rfl, if_pos rfl]
  · rw [alset, alget, if_neg fun hh => h hh.symm, alget_aldelete, if_neg h,
      if_neg h]

end AListOps

/-- The `rateLimitCollection`: endpoint keys (`"id/token"`) and the
reserved `"global"` key, mapped to stored JavaScript numbers. -/
abbrev RLCache := List (String × JSNum)

/-- The rate-limit headers of a response, after the `Number(...)`
conversions of lines 102 and 105-106 (`JSNum.nan` models an absent or
non-numeric header), plus the truthiness of `x-ratelimit-global`. -/
structure WHHeader where
  remaining : JSNum
  reset : JSNum
  retryAfter : JSNum
  globalFlag : Bool
deriving DecidableEq

/-- `WHRequestHandler.setOrEditRateLimitCache` (lines 101-122).
`now` is `Date.now()` at line 106. -/
def setOrEditRateLimitCache (rl : RLCache) (endpoint : String)
    (header : WHHeader) (edit : Bool) (statusCode : Int) (now : Int) :
    RLCache :=
  let discordHeader := header.remaining
  if discordHeader = JSNum.int 0 ∨ statusCode = 429 then
    let discordResetTime := jsMul1000 header.reset
    let discordRetryAfter := jsAddInt header.retryAfter now
    let timestamp := branchlessMax discordResetTime discordRetryAfter
    if header.globalFlag = true then
      alset rl "global" discordRetryAfter
    else
      alset rl endpoint (JSNum.int timestamp)
  else if edit = true then
    aldelete rl endpoint
  else
    rl

/-- The three ways `conditionalsHandler` (lines 136-176) can dispatch an
attempt: immediately with no cache entries present (lines 138-143,
recording afterwards with `edit = false` and deleting the queue entry at
line 141), after a timer set for `timestamp - now` (lines 149-170,
recording with `edit = true` at line 155), or immediately because the
computed timestamp is in the past (lines 171-176, recording with
`edit = true`). -/
inductive DispatchDecision where
  | callNowFresh : DispatchDecision
  | waitUntil : Int → DispatchDecision
  | callNowExpired : DispatchDecision
deriving DecidableEq

/-- The `edit` argument passed to `setOrEditRateLimitCache` after the
transport call succeeds, on each path (lines 140, 155, 173). -/
def recordEdit : DispatchDecision → Bool
  | DispatchDecision.callNowFresh => false
  | DispatchDecision.waitUntil _ => true
  | DispatchDecision.callNowExpired => true

/-- `true` for the decisions produced by the `else` branch of line 144,
which compares the cached timestamps against `Date.now()`. -/
def viaComparisonPath : DispatchDecision → Bool
  | DispatchDecision.callNowFresh => false
  | DispatchDecision.waitUntil _ => true
  | DispatchDecision.callNowExpired => true

/-- The branch structure of `conditionalsHandler` (lines 136-176): which
dispatch path is taken for a given cache state and current time. -/
def dispatchDecision (rl : RLCache) (endpoint : String) (now : Int) :
    DispatchDecision :=
  if alhas rl endpoint = false ∧ alhas rl "global" = false then
    DispatchDecision.callNowFresh
  else
    let endpointTimestamp := jsOrZero (alget rl endpoint)
    let globalTimestamp := jsOrZero (alget rl "global")
    let timestamp :=
      branchlessMax (JSNum.int endpointTimestamp) (JSNum.int globalTimestamp)
    if timestamp ≥ now then DispatchDecision.waitUntil timestamp
    else DispatchDecision.callNowExpired

/-- A fixed key of the form built at line 55 is never the reserved
`"global"` key: it contains the character `/`, which `"global"` does not. -/
theorem endpoint_ne_global (id token : String) : id ++ "/" ++ token ≠ "global" := by
  intro h
  have hmem : '/' ∈ (id ++ "/" ++ token).data := by
    rw [String.data_append, String.data_append]
    exact List.mem_append.mpr (Or.inl (List.mem_append.mpr (Or.inr (by decide))))
  rw [h] at hmem
  revert hmem
  decide

/-- `setOrEditRateLimitCache` never removes a present `"global"` entry:
its only deletion (line 119) targets the endpoint key. -/
theorem setOrEdit_global_isSome (rl : RLCache) (endpoint : String)
    (header : WHHeader) (edit : Bool) (statusCode now : Int)
    (hne : endpoint ≠ "global")
    (h : (alget rl "global").isSome = true) :
    (alget (setOrEditRateLimitCache rl endpoint header edit statusCode now)
      "global").isSome = true := by
  simp only [setOrEditRateLimitCache]
  split_ifs with h1 h2 h3
  · rw [alget_alset, if_pos rfl]; rfl
  · rw [alget_alset, if_neg (Ne.symm hne)]; exact h
  · rw [alget_aldelete, if_neg (Ne.symm hne)]; exact h
  · exact h

/-- When at least one relevant entry is present, `conditionalsHandler`
takes the `else` branch of line 144 (the timestamp-comparison path). -/
theorem viaComparisonPath_of_has (rl : RLCache) (endpoint : String) (now : Int)
    (h : ¬(alhas rl endpoint = false ∧ alhas rl "global" = false)) :
    viaComparisonPath (dispatchDecision rl endpoint now) = true := by
  simp only [dispatchDecision]
  rw [if_neg h]
  split <;> rfl

/-- On the timestamp-comparison path the post-call record always passes
`edit = true` (lines 155 and 173). -/
theorem recordEdit_of_has (rl : RLCache) (endpoint : String) (now : Int)
    (h : ¬(alhas rl endpoint = false ∧ alhas rl "global" = false)) :
    recordEdit (dispatchDecision rl endpoint now) = true := by
  simp only [dispatchDecision]
  rw [if_neg h]
  split <;> rfl

/-- Claim C1.  The code does NOT record the maximum of the
reset-derived and retry-after-derived timestamps: line 107 applies the
XOR/AND trick with JavaScript bitwise semantics, so the selected maximum
passes through `ToInt32` and the recorded value is its signed 32-bit
truncation.  At remaining = 0, reset = 1760000005 (epoch seconds),
retry-after = 2000, `Date.now()` = 1760000000000, the endpoint entry
becomes `-936586360`, while the claimed value is
`max(1760000005000, 1760000002000) = 1760000005000`. -/
theorem claim_C1_stored_value_is_truncated :
    alget (setOrEditRateLimitCache [] "id/tok"
        ⟨JSNum.int 0, JSNum.int 1760000005, JSNum.int 2000, false⟩
        false 200 1760000000000) "id/tok"
      = some (JSNum.int (-936586360))
    ∧ decide ((-936586360 : Int) = max 1760000005000 1760000002000) = false := by
  exact ⟨by decide, by decide⟩

/-- Claim C2.  On integer operands the branchless expression of
lines 107/147 equals the `ToInt32` truncation of the true maximum, not
the maximum itself; for epoch-millisecond values produced by
`Date.now()` (all of which exceed `2^31`) the two always differ.  At
a = 1760000000000, b = 1760000001000 the expression evaluates to
`-936590360`, not `max a b = 1760000001000`. -/
theorem claim_C2_branchless_expression_truncates :
    (∀ a b : Int,
      branchlessMax (JSNum.int a) (JSNum.int b) = toInt32 (max a b))
    ∧ branchlessMax (JSNum.int 1760000000000) (JSNum.int 1760000001000)
        = -936590360
    ∧ decide ((-936590360 : Int)
        = max (1760000000000 : Int) 1760000001000) = false :=
  ⟨branchlessMax_int, by decide, by decide⟩

/-- Claim C4.  With the global lockout set to G = 1760000005000 and no
endpoint entry, at `Date.now()` = 1760000000000 < G the handler does
not wait: line 147 truncates G through `ToInt32`, the comparison at
line 149 fails, and the transport is called immediately
(lines 171-176), i.e. a network call for the endpoint starts before G. -/
theorem claim_C4_global_lockout_not_awaited :
    dispatchDecision [("global", JSNum.int 1760000005000)] "id/tok"
        1760000000000
      = DispatchDecision.callNowExpired
    ∧ (1760000000000 : Int) < 1760000005000 := by
  exact ⟨by decide, by decide⟩

/-- Claim C7, counterexample.  For a global-flagged lockout the code
stores `discordRetryAfter` (line 112), not the computed candidate
maximum: with remaining = 0, reset = 2000000000 (epoch seconds),
retry-after = 1000, `Date.now()` = 1760000000000 the stored global value
is 1760000001000, while the claimed maximum is
`max(2000000000000, 1760000001000) = 2000000000000`. -/
theorem claim_C7_cx_global_stores_retry_only :
    alget (setOrEditRateLimitCache [] "id/tok"
        ⟨JSNum.int 0, JSNum.int 2000000000, JSNum.int 1000, true⟩
        false 200 1760000000000) "global"
      = some (JSNum.int 1760000001000)
    ∧ decide ((1760000001000 : Int) = max 2000000000000 1760000001000)
        = false := by
  exact ⟨by decide, by decide⟩

/-- Claim C7, amended.  For every response that triggers a lockout and
is marked global, the RETRY-AFTER-derived timestamp (retry-after plus
the current time, line 112) is stored under the reserved global key
instead of the endpoint key; the endpoint entry is left unchanged. -/
theorem claim_C7_amended_global_stores_retry (rl : RLCache)
    (endpoint : String) (header : WHHeader) (edit : Bool)
    (statusCode now : Int)
    (htrig : header.remaining = JSNum.int 0 ∨ statusCode = 429)
    (hglob : header.globalFlag = true)
    (hne : endpoint ≠ "global") :
    alget (setOrEditRateLimitCache rl endpoint header edit statusCode now)
        "global"
      = some (jsAddInt header.retryAfter now)
    ∧ alget (setOrEditRateLimitCache rl endpoint header edit statusCode now)
        endpoint
      = alget rl endpoint := by
  simp only [setOrEditRateLimitCache]
  rw [if_pos htrig, if_pos hglob]
  constructor
  · rw [alget_alset, if_pos rfl]
  · rw [alget_alset, if_neg hne]

theorem claim_C7_amended_witness :
    ((⟨JSNum.int 0, JSNum.int 2000000000, JSNum.int 1000, true⟩ : WHHeader).remaining
        = JSNum.int 0 ∨ (200 : Int) = 429)
    ∧ alget (setOrEditRateLimitCache [] "a/b"
        ⟨JSNum.int 0, JSNum.int 2000000000, JSNum.int 1000, true⟩
        false 200 1760000000000) "global"
      = some (jsAddInt (JSNum.int 1000) 1760000000000) :=
  ⟨Or.inl rfl,
    (claim_C7_amended_global_stores_retry [] "a/b"
      ⟨JSNum.int 0, JSNum.int 2000000000, JSNum.int 1000, true⟩
      false 200 1760000000000 (Or.inl rfl) rfl (by decide)).1⟩

/-- A response that signals no rate limiting: every numeric header
absent (`Number(undefined) = NaN`), global flag falsy. -/
def cleanHeader : WHHeader := ⟨JSNum.nan, JSNum.nan, JSNum.nan, false⟩

/-- Claim C8, counterexample.  With an empty cache the computed unlock
time is not in the future (absent entries count as the epoch), yet the
attempt goes through lines 138-143, whose record call passes
`edit = false` (line 140) — not confirm-clear as claimed. -/
theorem claim_C8_cx_fresh_path_records_without_clear :
    dispatchDecision [] "id/tok" 1760000000000 = DispatchDecision.callNowFresh
    ∧ recordEdit DispatchDecision.callNowFresh = false := by
  exact ⟨by decide, rfl⟩

/-- Claim C8, amended.  When the cache holds an entry for the endpoint
or for the global key, the attempt's post-success record passes
`edit = true` (lines 155 and 173), and such a record — for a response
that does not itself trigger a lockout — removes any existing endpoint
entry (line 119).  When neither entry exists the record is made with
`edit = false` (see the counterexample). -/
theorem claim_C8_amended_clear_when_entry_present (rl : RLCache)
    (endpoint : String) (header : WHHeader) (statusCode now : Int)
    (hentry : alhas rl endpoint = true ∨ alhas rl "global" = true)
    (hrem : ¬ header.remaining = JSNum.int 0) (hst : ¬ statusCode = 429) :
    recordEdit (dispatchDecision rl endpoint now) = true
    ∧ alget (setOrEditRateLimitCache rl endpoint header true statusCode now)
        endpoint
      = none := by
  constructor
  · refine recordEdit_of_has rl endpoint now fun hc => ?_
    cases hentry with
    | inl h => rw [hc.1] at h; exact Bool.noConfusion h
    | inr h => rw [hc.2] at h; exact Bool.noConfusion h
  · simp only [setOrEditRateLimitCache]
    rw [if_neg fun hor => hor.elim hrem hst]
    simp [alget_aldelete]

theorem claim_C8_amended_witness :
    (alhas [("a/b", JSNum.int 5)] "a/b" = true
      ∨ alhas [("a/b", JSNum.int 5)] "global" = true)
    ∧ recordEdit (dispatchDecision [("a/b", JSNum.int 5)] "a/b" 17) = true
    ∧ alget (setOrEditRateLimitCache [("a/b", JSNum.int 5)] "a/b"
        cleanHeader true 200 17) "a/b"
      = none :=
  ⟨Or.inl (by decide),
    (claim_C8_amended_clear_when_entry_present [("a/b", JSNum.int 5)] "a/b"
      cleanHeader 200 17 (Or.inl (by decide)) (by decide) (by decide)).1,
    (claim_C8_amended_clear_when_entry_present [("a/b", JSNum.int 5)] "a/b"
      cleanHeader 200 17 (Or.inl (by decide)) (by decide) (by decide)).2⟩

/-- Claim C10.  When the remaining-quota header does not convert to 0,
the status is not 429 and `edit` is `false`, `setOrEditRateLimitCache`
falls through both branches (lines 104, 118) and leaves the cache
untouched. -/
theorem claim_C10_no_trigger_no_edit_is_noop (rl : RLCache)
    (endpoint : String) (header : WHHeader) (statusCode now : Int)
    (hrem : ¬ header.remaining = JSNum.int 0) (hst : ¬ statusCode = 429) :
    setOrEditRateLimitCache rl endpoint header false statusCode now = rl := by
  simp only [setOrEditRateLimitCache]
  rw [if_neg fun hor => hor.elim hrem hst]
  simp

theorem claim_C10_witness :
    (¬ cleanHeader.remaining = JSNum.int 0) ∧ (¬ (200 : Int) = 429)
    ∧ setOrEditRateLimitCache [("a/b", JSNum.int 7)] "a/b" cleanHeader
        false 200 17
      = [("a/b", JSNum.int 7)] :=
  ⟨by decide, by decide,
    claim_C10_no_trigger_no_edit_is_noop [("a/b", JSNum.int 7)] "a/b"
      cleanHeader 200 17 (by decide) (by decide)⟩

/-- One call to `setOrEditRateLimitCache` as it occurs in the handler:
the endpoint key is always built from a webhook id and token
(line 55), so it is never the reserved `"global"` string. -/
structure RecordCall where
  webhookId : String
  webhookToken : String
  header : WHHeader
  edit : Bool
  statusCode : Int
  now : Int

/-- Fold a sequence of recording calls over the rate-limit cache — the
only way the handler ever mutates `rateLimitCollection`. -/
def applyRecordCalls (rl : RLCache) : List RecordCall → RLCache
  | [] => rl
  | c :: rest =>
      applyRecordCalls
        (setOrEditRateLimitCache rl (c.webhookId ++ "/" ++ c.webhookToken)
          c.header c.edit c.statusCode c.now) rest

/-- Claim C9.  Once a global entry is present it stays present under any
sequence of further recording calls (the only deletion, line 119,
targets an `id/token` key, never `"global"`), and while it is present
every dispatch decision is taken on the timestamp-comparison path of
line 144. -/
theorem claim_C9_global_entry_persists (rl : RLCache)
    (calls : List RecordCall) (id token : String) (now : Int)
    (h : (alget rl "global").isSome = true) :
    (alget (applyRecordCalls rl calls) "global").isSome = true
    ∧ viaComparisonPath (dispatchDecision rl (id ++ "/" ++ token) now)
      = true := by
  constructor
  · induction calls generalizing rl with
    | nil => exact h
    | cons c rest ih =>
        exact ih _ (setOrEdit_global_isSome rl _ c.header c.edit c.statusCode
          c.now (endpoint_ne_global c.webhookId c.webhookToken) h)
  · refine viaComparisonPath_of_has rl _ now fun hc => ?_
    have hfalse := hc.2
    rw [alhas, h] at hfalse
    exact Bool.noConfusion hfalse

theorem claim_C9_witness :
    (alget [("global", JSNum.int 9)] "global").isSome = true
    ∧ (alget (applyRecordCalls [("global", JSNum.int 9)]
        [⟨"a", "b", cleanHeader, true, 429, 17⟩]) "global").isSome = true
    ∧ viaComparisonPath
        (dispatchDecision [("global", JSNum.int 9)] ("a" ++ "/" ++ "b") 17)
      = true :=
  ⟨by decide,
    (claim_C9_global_entry_persists [("global", JSNum.int 9)]
      [⟨"a", "b", cleanHeader, true, 429, 17⟩] "a" "b" 17 (by decide)).1,
    (claim_C9_global_entry_persists [("global", JSNum.int 9)]
      [⟨"a", "b", cleanHeader, true, 429, 17⟩] "a" "b" 17 (by decide)).2⟩

/-- One transport attempt's result, as `superagent` delivers it: a
fulfilled 2xx response, or a rejection carrying `error.status` (absent
for a network-level failure) and the error object itself (identified
here by an opaque payload so that "propagated as-is" is expressible). -/
inductive TransportOutcome where
  | success : WHHeader → Int → TransportOutcome
  | failure : Option Int → Nat → WHHeader → TransportOutcome
deriving DecidableEq

/-- What the caller of `request` eventually observes. -/
inductive SurfacedOutcome where
  | response : WHHeader → Int → SurfacedOutcome
  | error : Option Int → Nat → WHHeader → SurfacedOutcome
deriving DecidableEq

/-- The outcome `conditionalsHandler` surfaces to the caller, given the
successive transport results of the attempt and its internal retries.
A fulfilled response resolves the caller's promise (lines 139-143 /
153-154 / 172-175); a rejection with `error.status === 429` is handled
internally by re-entering the handler (lines 157-162 and 179-190), so
the next element of the list is consumed; any other rejection is
re-raised unchanged (`reject(error)` at line 164, `throw error` at
line 193).  `none` means every observed attempt was rejected with 429
and the call is still being retried. -/
def surfacedOutcome : List TransportOutcome → Option SurfacedOutcome
  | [] => none
  | TransportOutcome.success h st :: _ => some (SurfacedOutcome.response h st)
  | TransportOutcome.failure st p h :: rest =>
      if st = some 429 then surfacedOutcome rest
      else some (SurfacedOutcome.error st p h)

/-- `true` unless the outcome is an error whose status is 429. -/
def notA429Error : Option SurfacedOutcome → Bool
  | some (SurfacedOutcome.error (some 429) _ _) => false
  | _ => true

/-- Claim C5.  A 429 transport rejection is never surfaced to the caller
(whatever surfaces is never a 429 error), and a non-429 rejection is not
retried: it surfaces immediately and unchanged (same status, same error
object, same headers). -/
theorem claim_C5_429_recovered_others_propagated :
    (∀ outs : List TransportOutcome,
      notA429Error (surfacedOutcome outs) = true)
    ∧ (∀ (st : Option Int) (p : Nat) (h : WHHeader)
        (rest : List TransportOutcome), ¬ st = some 429 →
        surfacedOutcome (TransportOutcome.failure st p h :: rest)
          = some (SurfacedOutcome.error st p h)) := by
  constructor
  · intro outs
    induction outs with
    | nil => rfl
    | cons o rest ih =>
        cases o with
        | success h st => rfl
        | failure st p h =>
            by_cases h429 : st = some 429
            · rw [surfacedOutcome, if_pos h429]; exact ih
            · rw [surfacedOutcome, if_neg h429]
              cases st with
              | none => rfl
              | some s =>
                  have hs : ¬ s = 429 := fun hh => h429 (by rw [hh])
                  simp [notA429Error, hs]
  · intro st p h rest h429
    rw [surfacedOutcome, if_neg h429]

theorem claim_C5_witness :
    (¬ (some 500 : Option Int) = some 429)
    ∧ surfacedOutcome [TransportOutcome.failure (some 500) 7 cleanHeader]
      = some (SurfacedOutcome.error (some 500) 7 cleanHeader) :=
  ⟨by decide,
    claim_C5_429_recovered_others_propagated.2 (some 500) 7 cleanHeader []
      (by decide)⟩

/-- Events observed while operations flow through the per-endpoint
queue: a call to `request` (lines 52-61), the start of an underlying
network call, and its settlement. -/
inductive QEvent where
  | submitted : Nat → QEvent
  | netStart : Nat → QEvent
  | netSettle : Nat → QEvent
deriving DecidableEq

/-- Bookkeeping for one submission (one `request` call): its endpoint
and the operation whose settlement gates its start — the promise found
in `queueCollection` at submission time (line 58), `none` standing for
the already-resolved `Promise.resolve()` sentinel. -/
structure QOpInfo where
  endpoint : String
  pred : Option Nat
deriving DecidableEq

/-- The cooperative single-threaded state of the handler: both maps, the
per-operation bookkeeping, and the event trace.  `queue` is
`queueCollection` with each stored tail promise identified by the
operation id it belongs to. -/
structure QState where
  rl : RLCache
  queue : List (String × Nat)
  ops : List (Nat × QOpInfo)
  started : List Nat
  settled : List Nat
  finalized : List Nat
  nextId : Nat
  trace : List QEvent
deriving DecidableEq

/-- The empty initial state (constructor, lines 33-34). -/
def initialQState : QState := ⟨[], [], [], [], [], [], 0, []⟩

/-- The atomic steps of the event loop, in the no-lockout fragment of
the handler (the one a drained rate-limit cache exercises):

* `submit e` — the synchronous part of `request` (lines 52-61): read the
  stored tail for the endpoint (line 58), chain the new operation behind
  it, and store the new tail (line 61).
* `start op` — the chained continuation fires once the predecessor has
  settled; `conditionalsHandler` finds no cache entry for the endpoint
  nor for `"global"` (line 138) and issues the network call (line 139).
  Cache states that would take a rate-limited branch make the step
  (and hence any trace through it) undefined, so a trace that runs to
  completion certifies that only the modelled branch was exercised.
* `netOk op header status` — the awaited call fulfils: lines 140-142 run
  as one synchronous block (record with `edit = false`, then
  `queueCollection.delete(endpoint)` at line 141), and the operation's
  promise settles.
* `finalize op` — the `finally` of `request` (lines 65-68): delete the
  endpoint's queue entry only if it still stores this operation's tail.
-/
inductive QAction where
  | submit : String → QAction
  | start : Nat → QAction
  | netOk : Nat → WHHeader → Int → QAction
  | finalize : Nat → QAction

/-- Whether the gating promise of an operation has settled. -/
def predSettled (s : QState) : Option Nat → Bool
  | none => true
  | some p => s.settled.contains p

/-- One atomic step of the event loop; `none` when the action is not
enabled in the given state (or would enter an unmodelled branch). -/
def qstep (now : Int) (s : QState) : QAction → Option QState
  | QAction.submit e =>
      some { s with
        ops := (s.nextId, ⟨e, alget s.queue e⟩) :: s.ops,
        queue := alset s.queue e s.nextId,
        nextId := s.nextId + 1,
        trace := s.trace ++ [QEvent.submitted s.nextId] }
  | QAction.start op =>
      match alget s.ops op with
      | none => none
      | some info =>
          if s.started.contains op then none
          else if predSettled s info.pred = false then none
          else if alhas s.rl info.endpoint = false
              ∧ alhas s.rl "global" = false then
            some { s with
              started := op :: s.started,
              trace := s.trace ++ [QEvent.netStart op] }
          else none
  | QAction.netOk op header status =>
      match alget s.ops op with
      | none => none
      | some info =>
          if s.started.contains op = false then none
          else if s.settled.contains op then none
          else
            some { s with
              rl := setOrEditRateLimitCache s.rl info.endpoint header false
                status now,
              queue := aldelete s.queue info.endpoint,
              settled := op :: s.settled,
              trace := s.trace ++ [QEvent.netSettle op] }
  | QAction.finalize op =>
      match alget s.ops op with
      | none => none
      | some info =>
          if s.settled.contains op = false then none
          else if s.finalized.contains op then none
          else
            some { s with
              queue :=
                if alget s.queue info.endpoint = some op then
                  aldelete s.queue info.endpoint
                else s.queue,
              finalized := op :: s.finalized }

/-- Run a schedule of steps from a state; `none` if any step is not
enabled. -/
def runQ (now : Int) : QState → List QAction → Option QState
  | s, [] => some s
  | s, a :: rest =>
      match qstep now s a with
      | none => none
      | some s2 => runQ now s2 rest

/-- Claim C6, refuting trace.  Submission 0 and then submission 1 are
made for the same endpoint (submission 1 while 0's network call is in
flight, so operation 1 is chained behind operation 0).  When
operation 0's call fulfils, line 141 deletes the endpoint's
`queueCollection` entry unconditionally — in the final state the entry
is gone (`alget s.queue "id/tok" = none`) although operation 1, with
`pred = some 0`, is still pending (`s.settled = [0]`), and although the
stored tail at that moment was operation 1's tail, not operation 0's.
The entry is thus removed while a later submission is still chained
behind it, and not at settle time under the stored-tail check. -/
theorem claim_C6_entry_removed_while_chained :
    (runQ 1760000000000 initialQState
        [QAction.submit "id/tok", QAction.start 0, QAction.submit "id/tok",
         QAction.netOk 0 cleanHeader 200]).map
      (fun s => (alget s.queue "id/tok", alget s.ops 1, s.settled))
      = some (none, some ⟨"id/tok", some 0⟩, [0]) := by
  decide

/-- Claim C3, refuting trace.  Submissions 0, 1, 2 target the same
endpoint, in that order; submission 1 arrives while 0's network call is
in flight, and submission 2 arrives while 1's call is in flight (after
0's response deleted the queue entry at line 141, and after the
`finally` of `request` ran for 0).  Because `queueCollection` no longer
holds the endpoint, submission 2 chains behind the resolved sentinel
(`pred = none`) and its network call starts at once: the trace ends with
`netStart 2` while `netSettle 1` never occurs — submission 2's network
call starts before submission 1's network call settles. -/
theorem claim_C3_fifo_broken_by_line141 :
    (runQ 1760000000000 initialQState
        [QAction.submit "id/tok", QAction.start 0, QAction.submit "id/tok",
         QAction.netOk 0 cleanHeader 200, QAction.finalize 0, QAction.start 1,
         QAction.submit "id/tok", QAction.start 2]).map QState.trace
      = some [QEvent.submitted 0, QEvent.netStart 0, QEvent.submitted 1,
          QEvent.netSettle 0, QEvent.netStart 1, QEvent.submitted 2,
          QEvent.netStart 2] := by
  decide
